import Mathlib

/-!
Verification of the VAT calculation engine of the accounting backend
(file backend/vat_service.py, class VATService).

This file is a shallow embedding, in Lean 4, of the arithmetic core of the
VAT service, together with proofs of the documented properties of that
core.

Modelling conventions:

* Python Decimal values are modelled as exact rationals (ℚ).  All the
  operations the service performs on them — addition, subtraction,
  multiplication, division and quantization to 2 decimal places with the
  ROUND_HALF_UP mode — are exact in Decimal at the operand sizes involved
  (the default context carries 28 significant digits), except for
  division, which Decimal rounds to 28 significant digits before the
  service quantizes the quotient to 2 decimal places; the embedding
  performs the division exactly, which agrees with the code whenever the
  28-digit intermediate rounding does not straddle a half-cent boundary
  (it does not at any input considered here).
* The ROUND_HALF_UP rounding mode of Decimal rounds ties away from zero,
  which is what quantizeHalfUp2 below implements.
* The one external collaborator of the calculator, the method
  get_vat_rate_percentage (a read-only database lookup that returns the
  active percentage for a rate id, or the Python value None), is modelled
  as an explicit function parameter of type RateLookup.  Passing it
  explicitly makes the independence of the calculator from shared state a
  provable statement rather than an assumption.
* Python truthiness of the optional integer argument vat_rate_id is
  modelled by idTruthy: None and 0 are falsy, every other integer is
  truthy.
* Rational division by zero is total in Lean (q / 0 = 0); the code paths
  proved below never divide by zero (the VAT multiplier 1 + rate/100 is
  at least 1 for the non-negative rates the properties quantify over).
-/

/-- Embeds the Decimal quantization step used throughout the service:
quantize to 2 decimal places in the ROUND_HALF_UP mode, which rounds to
the nearest cent with ties going away from zero. -/
def quantizeHalfUp2 (q : ℚ) : ℚ :=
  if 0 ≤ q then ((⌊q * 100 + 1/2⌋ : ℤ) : ℚ) / 100
  else -(((⌊-q * 100 + 1/2⌋ : ℤ) : ℚ) / 100)

/-- Modelled from the spec: round2, the rule stated as round-half-up to 2
decimal places (currency precision).  Stated independently of the
quantizeHalfUp2 function taken from the code so that the two can be
compared; they agree on the non-negative arguments the preconditions of
the spec restrict to. -/
def round2 (q : ℚ) : ℚ :=
  ((⌊q * 100 + 1/2⌋ : ℤ) : ℚ) / 100

/-- The database-backed rate lookup get_vat_rate_percentage: given a VAT
rate id it returns the active rate percentage, or none when no active
rate matches (or the query fails). -/
abbrev RateLookup := ℤ → Option ℚ

/-- Python truthiness of the optional integer argument vat_rate_id: the
values None and 0 are falsy, every other integer is truthy. -/
def idTruthy : Option ℤ → Bool
  | none => false
  | some i => i != 0

/-- The rate-resolution preamble shared by calculate_vat and
calculate_vat_from_gross: when no explicit percentage is supplied and the
rate id is truthy, the percentage is looked up; any percentage still
missing after that is replaced by the default Irish standard rate of
23.00. -/
def resolveRatePercentage (lookup : RateLookup)
    (vat_rate_id : Option ℤ) (vat_rate_percentage : Option ℚ) : ℚ :=
  let p : Option ℚ :=
    if vat_rate_percentage = none ∧ idTruthy vat_rate_id = true then
      vat_rate_id.bind lookup
    else vat_rate_percentage
  p.getD 23

/-- The VATCalculationResponse model returned by both calculators (file
backend/vat_models.py). -/
structure VATCalculationResponse where
  net_amount : ℚ
  vat_rate_percentage : ℚ
  vat_amount : ℚ
  gross_amount : ℚ
  deductible_amount : ℚ
  business_usage_percentage : ℚ
deriving Repr, DecidableEq

/-- The method calculate_vat (forward direction, net to gross).  The
Python defaults are None for the rate id and the rate percentage and
100.00 for the business-usage percentage; callers here always pass the
arguments explicitly. -/
def calculate_vat (lookup : RateLookup) (net_amount : ℚ)
    (vat_rate_id : Option ℤ) (vat_rate_percentage : Option ℚ)
    (business_usage_percentage : ℚ) : VATCalculationResponse :=
  let rate := resolveRatePercentage lookup vat_rate_id vat_rate_percentage
  let vat_amount := quantizeHalfUp2 (net_amount * rate / 100)
  let gross_amount := net_amount + vat_amount
  let deductible_amount :=
    quantizeHalfUp2 (net_amount * business_usage_percentage / 100)
  { net_amount := net_amount
    vat_rate_percentage := rate
    vat_amount := vat_amount
    gross_amount := gross_amount
    deductible_amount := deductible_amount
    business_usage_percentage := business_usage_percentage }

/-- The method calculate_vat_from_gross (reverse direction, gross to
net). -/
def calculate_vat_from_gross (lookup : RateLookup) (gross_amount : ℚ)
    (vat_rate_id : Option ℤ) (vat_rate_percentage : Option ℚ)
    (business_usage_percentage : ℚ) : VATCalculationResponse :=
  let rate := resolveRatePercentage lookup vat_rate_id vat_rate_percentage
  let vat_multiplier := 1 + rate / 100
  let net_amount := quantizeHalfUp2 (gross_amount / vat_multiplier)
  let vat_amount := gross_amount - net_amount
  let deductible_amount :=
    quantizeHalfUp2 (net_amount * business_usage_percentage / 100)
  { net_amount := net_amount
    vat_rate_percentage := rate
    vat_amount := vat_amount
    gross_amount := gross_amount
    deductible_amount := deductible_amount
    business_usage_percentage := business_usage_percentage }

/-- The method calculate_eworker_expense: days times daily rate,
quantized to 2 decimal places. -/
def calculate_eworker_expense (days daily_rate : ℚ) : ℚ :=
  quantizeHalfUp2 (days * daily_rate)

/-- The method calculate_mileage_expense with an explicit per-km rate. -/
def calculate_mileage_expense (km rate_per_km : ℚ) : ℚ :=
  quantizeHalfUp2 (km * rate_per_km)

/-- The method get_irish_mileage_rate, which is also the Python default
value of the rate parameter of calculate_mileage_expense. -/
def get_irish_mileage_rate : ℚ := 3708 / 10000

/-- The method calculate_mileage_expense as called with its Python
default rate. -/
def calculate_mileage_expense_default (km : ℚ) : ℚ :=
  calculate_mileage_expense km get_irish_mileage_rate

/-! Basic facts about the embedding, shared by several claim proofs. -/

/-- An explicitly supplied percentage short-circuits rate resolution. -/
theorem resolveRatePercentage_some (lookup : RateLookup)
    (rid : Option ℤ) (p : ℚ) :
    resolveRatePercentage lookup rid (some p) = p := by
  simp [resolveRatePercentage]

/-- With no percentage and no id, resolution defaults to 23. -/
theorem resolveRatePercentage_none_none (lookup : RateLookup) :
    resolveRatePercentage lookup none none = 23 := by
  simp [resolveRatePercentage, idTruthy]

/-- With no percentage and the falsy id 0, no lookup happens and
resolution defaults to 23. -/
theorem resolveRatePercentage_none_zero (lookup : RateLookup) :
    resolveRatePercentage lookup (some 0) none = 23 := by
  simp [resolveRatePercentage, idTruthy]

/-- When the lookup finds no active rate for the supplied id, resolution
falls back to 23. -/
theorem resolveRatePercentage_lookup_fails (lookup : RateLookup) (i : ℤ)
    (h : lookup i = none) :
    resolveRatePercentage lookup (some i) none = 23 := by
  by_cases h0 : i = 0
  · subst h0; simp [resolveRatePercentage, idTruthy]
  · simp [resolveRatePercentage, idTruthy, h0, h]

/-- On non-negative arguments the quantization of the code coincides with
the round2 rule of the spec. -/
theorem quantizeHalfUp2_eq_round2 (q : ℚ) (h : 0 ≤ q) :
    quantizeHalfUp2 q = round2 q := by
  simp [quantizeHalfUp2, round2, h]

/-- Quantization preserves non-negativity. -/
theorem quantizeHalfUp2_nonneg (q : ℚ) (h : 0 ≤ q) : 0 ≤ quantizeHalfUp2 q := by
  rw [quantizeHalfUp2, if_pos h]
  have h1 : (0 : ℤ) ≤ ⌊q * 100 + 1/2⌋ := by
    apply Int.floor_nonneg.mpr
    positivity
  positivity

/-- Claim C1: for every net amount, VAT rate percentage and
business-usage percentage satisfying the preconditions (net ≥ 0,
rate ≥ 0, 0 ≤ business usage ≤ 100), calculate_vat with an explicit rate
returns vat_amount = round2 (net * rate / 100), gross_amount =
net + vat_amount and deductible_amount = round2 (net * usage / 100); in
particular at net 100 and rate 23 the vat_amount is 23 and the
gross_amount is 123. -/
theorem C1_calculateFromNet_spec (lookup : RateLookup) (net rate bu : ℚ)
    (hnet : 0 ≤ net) (hrate : 0 ≤ rate) (hbu0 : 0 ≤ bu) (hbu1 : bu ≤ 100) :
    (calculate_vat lookup net none (some rate) bu).vat_amount
        = round2 (net * rate / 100) ∧
    (calculate_vat lookup net none (some rate) bu).gross_amount
        = net + (calculate_vat lookup net none (some rate) bu).vat_amount ∧
    (calculate_vat lookup net none (some rate) bu).deductible_amount
        = round2 (net * bu / 100) ∧
    (calculate_vat lookup 100 none (some 23) 100).vat_amount = 23 ∧
    (calculate_vat lookup 100 none (some 23) 100).gross_amount = 123 := by
  have h1 : 0 ≤ net * rate / 100 := by positivity
  have h2 : 0 ≤ net * bu / 100 := by positivity
  simp only [calculate_vat, resolveRatePercentage_some]
  refine ⟨quantizeHalfUp2_eq_round2 _ h1, trivial, quantizeHalfUp2_eq_round2 _ h2, ?_, ?_⟩
  · norm_num [quantizeHalfUp2]
  · norm_num [quantizeHalfUp2]

/-- Witness for C1 at net 100, rate 23, business usage 100. -/
theorem C1_calculateFromNet_spec_witness :
    (0 : ℚ) ≤ 100 ∧ (0 : ℚ) ≤ 23 ∧ (0 : ℚ) ≤ 100 ∧ (100 : ℚ) ≤ 100 ∧
    (calculate_vat (fun _ => none) 100 none (some 23) 100).vat_amount
      = round2 (100 * 23 / 100) :=
  ⟨by norm_num, by norm_num, by norm_num, by norm_num,
    (C1_calculateFromNet_spec (fun _ => none) 100 23 100
      (by norm_num) (by norm_num) (by norm_num) (by norm_num)).1⟩

/-- Claim C2: for every gross amount ≥ 0, rate ≥ 0 and business usage in
[0, 100], calculate_vat_from_gross with an explicit rate returns
net_amount = round2 (gross / (1 + rate/100)), vat_amount =
gross - net_amount and deductible_amount = round2 (net * usage / 100); in
particular at gross 123 and rate 23 the net_amount is 100 and the
vat_amount is 23. -/
theorem C2_calculateFromGross_spec (lookup : RateLookup) (gross rate bu : ℚ)
    (hgross : 0 ≤ gross) (hrate : 0 ≤ rate) (hbu0 : 0 ≤ bu) (hbu1 : bu ≤ 100) :
    (calculate_vat_from_gross lookup gross none (some rate) bu).net_amount
        = round2 (gross / (1 + rate / 100)) ∧
    (calculate_vat_from_gross lookup gross none (some rate) bu).vat_amount
        = gross - (calculate_vat_from_gross lookup gross none (some rate) bu).net_amount ∧
    (calculate_vat_from_gross lookup gross none (some rate) bu).deductible_amount
        = round2 ((calculate_vat_from_gross lookup gross none (some rate) bu).net_amount
            * bu / 100) ∧
    (calculate_vat_from_gross lookup 123 none (some 23) 100).net_amount = 100 ∧
    (calculate_vat_from_gross lookup 123 none (some 23) 100).vat_amount = 23 := by
  have hmul : (0 : ℚ) < 1 + rate / 100 := by
    have : (0 : ℚ) ≤ rate / 100 := by positivity
    linarith
  have hq : 0 ≤ gross / (1 + rate / 100) := div_nonneg hgross (le_of_lt hmul)
  have hded : 0 ≤ quantizeHalfUp2 (gross / (1 + rate / 100)) * bu / 100 := by
    have hnet : 0 ≤ quantizeHalfUp2 (gross / (1 + rate / 100)) :=
      quantizeHalfUp2_nonneg _ hq
    positivity
  simp only [calculate_vat_from_gross, resolveRatePercentage_some]
  refine ⟨quantizeHalfUp2_eq_round2 _ hq, trivial, quantizeHalfUp2_eq_round2 _ hded, ?_, ?_⟩
  · norm_num [quantizeHalfUp2]
  · norm_num [quantizeHalfUp2]

/-- Witness for C2 at gross 123, rate 23, business usage 100. -/
theorem C2_calculateFromGross_spec_witness :
    (0 : ℚ) ≤ 123 ∧ (0 : ℚ) ≤ 23 ∧ (0 : ℚ) ≤ 100 ∧ (100 : ℚ) ≤ 100 ∧
    (calculate_vat_from_gross (fun _ => none) 123 none (some 23) 100).net_amount
      = round2 (123 / (1 + 23 / 100)) :=
  ⟨by norm_num, by norm_num, by norm_num, by norm_num,
    (C2_calculateFromGross_spec (fun _ => none) 123 23 100
      (by norm_num) (by norm_num) (by norm_num) (by norm_num)).1⟩

/-- Claim C3 counterexample: the calculator does not reject invalid
inputs.  At net -1 with rate 23 it returns an ordinary computed response
(vat_amount -0.23, gross_amount -1.23) instead of failing, and at
business usage 150 it returns deductible_amount 150 instead of failing:
no InvalidArgument failure mode exists anywhere in the code. -/
theorem C3_validation_counterexample :
    (calculate_vat (fun _ => none) (-1) none (some 23) 100).vat_amount = -(23/100) ∧
    (calculate_vat (fun _ => none) (-1) none (some 23) 100).gross_amount = -(123/100) ∧
    (calculate_vat (fun _ => none) 100 none (some 23) 150).deductible_amount = 150 ∧
    (calculate_vat (fun _ => none) 100 none (some 23) 150).vat_amount = 23 := by
  refine ⟨?_, ?_, ?_, ?_⟩ <;>
    norm_num [calculate_vat, resolveRatePercentage_some, quantizeHalfUp2]

/-- Claim C3 as amended: the calculator performs no input validation at
all.  For every rational net amount, rate percentage and business-usage
percentage — negative or out of range included — calculate_vat is total
and returns the response computed by the unchecked arithmetic
formulas. -/
theorem C3_total_no_validation (lookup : RateLookup) (net rate bu : ℚ) :
    calculate_vat lookup net none (some rate) bu =
      { net_amount := net
        vat_rate_percentage := rate
        vat_amount := quantizeHalfUp2 (net * rate / 100)
        gross_amount := net + quantizeHalfUp2 (net * rate / 100)
        deductible_amount := quantizeHalfUp2 (net * bu / 100)
        business_usage_percentage := bu } := by
  simp [calculate_vat, resolveRatePercentage_some]

/-- Claim C4: when the caller supplies a rate id instead of an explicit
percentage and the lookup returns no active rate for that id, both
calculators fall back to the default rate 23.00 and compute all amounts
from it. -/
theorem C4_fallback_rate (lookup : RateLookup) (i : ℤ) (amt bu : ℚ)
    (h : lookup i = none) :
    (calculate_vat lookup amt (some i) none bu).vat_rate_percentage = 23 ∧
    (calculate_vat lookup amt (some i) none bu).vat_amount
        = quantizeHalfUp2 (amt * 23 / 100) ∧
    (calculate_vat_from_gross lookup amt (some i) none bu).vat_rate_percentage = 23 ∧
    (calculate_vat_from_gross lookup amt (some i) none bu).net_amount
        = quantizeHalfUp2 (amt / (1 + 23 / 100)) := by
  have hr := resolveRatePercentage_lookup_fails lookup i h
  refine ⟨?_, ?_, ?_, ?_⟩ <;> simp [calculate_vat, calculate_vat_from_gross, hr]

/-- Witness for C4 with an empty lookup table and rate id 1. -/
theorem C4_fallback_rate_witness :
    ((fun _ => none : RateLookup) 1 = none) ∧
    (calculate_vat (fun _ => none) 100 (some 1) none 100).vat_rate_percentage = 23 :=
  ⟨rfl, (C4_fallback_rate (fun _ => none) 1 100 100 rfl).1⟩

/-- Claim C5 counterexample: at the valid input net = 0.005 (= 1/200),
rate 23, business usage 100, the deductible amount is quantized up to
0.01, which is strictly greater than the net amount, so neither
deductible ≤ net nor deductible = net holds for arbitrary valid
inputs. -/
theorem C5_deductible_counterexample :
    (0 : ℚ) ≤ 1/200 ∧ ((100 : ℚ) ≤ 100) ∧
    (calculate_vat (fun _ => none) (1/200) none (some 23) 100).deductible_amount
        = 1/100 ∧
    ¬ ((calculate_vat (fun _ => none) (1/200) none (some 23) 100).deductible_amount
        ≤ (calculate_vat (fun _ => none) (1/200) none (some 23) 100).net_amount) := by
  refine ⟨by norm_num, by norm_num, ?_, ?_⟩ <;>
    norm_num [calculate_vat, resolveRatePercentage_some, quantizeHalfUp2]

/-- Claim C5 as amended: for net amounts that are a whole number of cents
(at most 2 decimal places), rate ≥ 0 and business usage in [0, 100], the
deductible amount is at most the net amount, with equality when the
business usage is exactly 100. -/
theorem C5_deductible_bounded (lookup : RateLookup) (k : ℕ) (rate bu : ℚ)
    (hrate : 0 ≤ rate) (hbu0 : 0 ≤ bu) (hbu1 : bu ≤ 100) :
    (calculate_vat lookup ((k : ℚ) / 100) none (some rate) bu).deductible_amount
      ≤ (calculate_vat lookup ((k : ℚ) / 100) none (some rate) bu).net_amount ∧
    (bu = 100 →
      (calculate_vat lookup ((k : ℚ) / 100) none (some rate) bu).deductible_amount
        = (calculate_vat lookup ((k : ℚ) / 100) none (some rate) bu).net_amount) := by
  have hk : (0 : ℚ) ≤ (k : ℚ) := by positivity
  have harg : (0 : ℚ) ≤ (k : ℚ) / 100 * bu / 100 := by positivity
  have hform : (k : ℚ) / 100 * bu / 100 * 100 + 1/2 = (k : ℚ) * bu / 100 + 1/2 := by
    ring
  simp only [calculate_vat, resolveRatePercentage_some, quantizeHalfUp2, if_pos harg,
    hform]
  constructor
  · have hle : (k : ℚ) * bu / 100 ≤ (k : ℚ) := by
      rw [div_le_iff₀ (by norm_num : (0:ℚ) < 100)]
      exact mul_le_mul_of_nonneg_left hbu1 hk
    have hfl : ⌊(k : ℚ) * bu / 100 + 1/2⌋ ≤ (k : ℤ) := by
      rw [Int.floor_le_iff]
      push_cast
      linarith
    rw [div_le_div_iff₀ (by norm_num : (0:ℚ) < 100) (by norm_num : (0:ℚ) < 100)]
    have hc : ((⌊(k : ℚ) * bu / 100 + 1/2⌋ : ℤ) : ℚ) ≤ ((k : ℤ) : ℚ) := by
      exact_mod_cast hfl
    calc ((⌊(k : ℚ) * bu / 100 + 1/2⌋ : ℤ) : ℚ) * 100
        ≤ ((k : ℤ) : ℚ) * 100 := by nlinarith
      _ = (k : ℚ) * 100 := by push_cast; ring
  · intro hbu
    subst hbu
    have h100 : (k : ℚ) * 100 / 100 = (k : ℚ) := by ring
    rw [h100]
    have hfl : ⌊(k : ℚ) + 1/2⌋ = (k : ℤ) := by
      rw [Int.floor_eq_iff]
      constructor
      · push_cast; linarith
      · push_cast; linarith
    rw [hfl]
    push_cast
    ring

/-- Witness for C5 as amended, at net 0.05 (5 cents), rate 23, business
usage 50. -/
theorem C5_deductible_bounded_witness :
    (0 : ℚ) ≤ 23 ∧ (0 : ℚ) ≤ 50 ∧ (50 : ℚ) ≤ 100 ∧
    (calculate_vat (fun _ => none) (((5 : ℕ) : ℚ) / 100) none (some 23) 50).deductible_amount
      ≤ (calculate_vat (fun _ => none) (((5 : ℕ) : ℚ) / 100) none (some 23) 50).net_amount :=
  ⟨by norm_num, by norm_num, by norm_num,
    (C5_deductible_bounded (fun _ => none) 5 23 50
      (by norm_num) (by norm_num) (by norm_num)).1⟩

/-- Claim C6: the specific round-trip instance holds — from gross 100 at
rate 23 the net is 81.30 and the vat 18.70, and re-applying the forward
calculation to net 81.30 yields vat 18.70 and gross 100 — yet there is an
input x (here x = 0.005) for which the gross-to-net calculation applied
to the net-to-gross result does not recover x, because the two steps
round independently. -/
theorem C6_roundtrip :
    (calculate_vat_from_gross (fun _ => none) 100 none (some 23) 100).net_amount
        = 813/10 ∧
    (calculate_vat_from_gross (fun _ => none) 100 none (some 23) 100).vat_amount
        = 187/10 ∧
    (calculate_vat (fun _ => none) (813/10) none (some 23) 100).vat_amount = 187/10 ∧
    (calculate_vat (fun _ => none) (813/10) none (some 23) 100).gross_amount = 100 ∧
    ∃ x : ℚ, 0 ≤ x ∧
      (calculate_vat_from_gross (fun _ => none)
          ((calculate_vat (fun _ => none) x none (some 23) 100).gross_amount)
          none (some 23) 100).net_amount ≠ x := by
  refine ⟨?_, ?_, ?_, ?_, ⟨1/200, by norm_num, ?_⟩⟩ <;>
    norm_num [calculate_vat, calculate_vat_from_gross, resolveRatePercentage_some,
      quantizeHalfUp2]

/-- Claim C7: the e-worker expense is round2 (days * daily rate), so 5
days at 250.00 gives 1250.00; the mileage expense is round2 (km * rate
per km) with default rate 0.3708, so 100 km at 0.3708 gives 37.08. -/
theorem C7_expense_calculators (days daily_rate km rate_per_km : ℚ)
    (hd : 0 ≤ days) (hr : 0 ≤ daily_rate) (hk : 0 ≤ km) (hm : 0 ≤ rate_per_km) :
    calculate_eworker_expense days daily_rate = round2 (days * daily_rate) ∧
    calculate_mileage_expense km rate_per_km = round2 (km * rate_per_km) ∧
    calculate_mileage_expense_default km = round2 (km * (3708/10000)) ∧
    get_irish_mileage_rate = 3708/10000 ∧
    calculate_eworker_expense 5 250 = 1250 ∧
    calculate_mileage_expense 100 (3708/10000) = 3708/100 := by
  have h1 : 0 ≤ days * daily_rate := mul_nonneg hd hr
  have h2 : 0 ≤ km * rate_per_km := mul_nonneg hk hm
  have h3 : 0 ≤ km * (3708/10000 : ℚ) := by positivity
  refine ⟨quantizeHalfUp2_eq_round2 _ h1, quantizeHalfUp2_eq_round2 _ h2, ?_, rfl, ?_, ?_⟩
  · exact quantizeHalfUp2_eq_round2 _ h3
  · norm_num [calculate_eworker_expense, quantizeHalfUp2]
  · norm_num [calculate_mileage_expense, quantizeHalfUp2]

/-- Witness for C7 at 5 days of 250.00 and 100 km at the default rate. -/
theorem C7_expense_calculators_witness :
    (0 : ℚ) ≤ 5 ∧ (0 : ℚ) ≤ 250 ∧ (0 : ℚ) ≤ 100 ∧ (0 : ℚ) ≤ 3708/10000 ∧
    calculate_eworker_expense 5 250 = round2 (5 * 250) :=
  ⟨by norm_num, by norm_num, by norm_num, by norm_num,
    (C7_expense_calculators 5 250 100 (3708/10000)
      (by norm_num) (by norm_num) (by norm_num) (by norm_num)).1⟩

/-- Claim C8: with an explicit rate percentage both calculators are pure
and deterministic — any two calls with identical arguments return
identical results, and the result does not depend on the rate-lookup
collaborator (the only external state), so no shared state is read. -/
theorem C8_pure_deterministic (lookup1 lookup2 : RateLookup) (rid : Option ℤ)
    (amt p bu : ℚ) :
    calculate_vat lookup1 amt rid (some p) bu
        = calculate_vat lookup2 amt rid (some p) bu ∧
    calculate_vat_from_gross lookup1 amt rid (some p) bu
        = calculate_vat_from_gross lookup2 amt rid (some p) bu ∧
    calculate_vat lookup1 amt rid (some p) bu
        = calculate_vat lookup1 amt rid (some p) bu := by
  refine ⟨?_, ?_, rfl⟩ <;>
    simp [calculate_vat, calculate_vat_from_gross, resolveRatePercentage_some]

/-- Claim C9: calculate_vat returns the net amount of the caller exactly
and calculate_vat_from_gross returns the gross amount of the caller
exactly, with no quantization; consequently gross = net + vat holds
exactly in both directions for every input, including inputs with more
than 2 decimal places. -/
theorem C9_amount_passthrough (lookup : RateLookup) (rid : Option ℤ)
    (rp : Option ℚ) (amt bu : ℚ) :
    (calculate_vat lookup amt rid rp bu).net_amount = amt ∧
    (calculate_vat_from_gross lookup amt rid rp bu).gross_amount = amt ∧
    (calculate_vat lookup amt rid rp bu).gross_amount
        = (calculate_vat lookup amt rid rp bu).net_amount
          + (calculate_vat lookup amt rid rp bu).vat_amount ∧
    (calculate_vat_from_gross lookup amt rid rp bu).gross_amount
        = (calculate_vat_from_gross lookup amt rid rp bu).net_amount
          + (calculate_vat_from_gross lookup amt rid rp bu).vat_amount := by
  refine ⟨rfl, rfl, rfl, ?_⟩
  simp only [calculate_vat_from_gross]
  ring

/-- Claim C10: when neither a rate id nor a rate percentage is supplied,
or the supplied rate id is the falsy value 0 with no percentage, both
calculators silently use the default rate 23.00, attempt no lookup (the
result is independent of the lookup), signal no error, and report 23 in
the vat_rate_percentage field. -/
theorem C10_silent_default (lookup1 lookup2 : RateLookup) (amt bu : ℚ) :
    (calculate_vat lookup1 amt none none bu).vat_rate_percentage = 23 ∧
    (calculate_vat lookup1 amt (some 0) none bu).vat_rate_percentage = 23 ∧
    (calculate_vat_from_gross lookup1 amt none none bu).vat_rate_percentage = 23 ∧
    (calculate_vat_from_gross lookup1 amt (some 0) none bu).vat_rate_percentage = 23 ∧
    calculate_vat lookup1 amt none none bu = calculate_vat lookup2 amt none none bu ∧
    calculate_vat lookup1 amt (some 0) none bu
        = calculate_vat lookup2 amt (some 0) none bu ∧
    calculate_vat_from_gross lookup1 amt none none bu
        = calculate_vat_from_gross lookup2 amt none none bu ∧
    calculate_vat_from_gross lookup1 amt (some 0) none bu
        = calculate_vat_from_gross lookup2 amt (some 0) none bu ∧
    (calculate_vat lookup1 amt none none bu).vat_amount
        = quantizeHalfUp2 (amt * 23 / 100) ∧
    (calculate_vat lookup1 amt (some 0) none bu).vat_amount
        = quantizeHalfUp2 (amt * 23 / 100) := by
  refine ⟨?_, ?_, ?_, ?_, ?_, ?_, ?_, ?_, ?_, ?_⟩ <;>
    simp [calculate_vat, calculate_vat_from_gross, resolveRatePercentage_none_none,
      resolveRatePercentage_none_zero]
